import Mathlib

/-!
Verification of the webhook delivery subsystem of the pwa-starter repository:
the `WebhookPlugin` class (queue, retry/backoff, HMAC signing, delivery
logging) and the `DatabaseService` webhook API it uses.  Each definition
below shallowly embeds one source function; theorems settle the spec claims.
-/

namespace PwaWebhooks

/-- JSON values, modelling the JavaScript payload objects handed to
`webhookPlugin.trigger` and serialized with `JSON.stringify`. -/
inductive Json where
  | null
  | bool (b : Bool)
  | num (n : Int)
  | str (s : String)
  | arr (elems : List Json)
  | obj (fields : List (String × Json))
deriving Repr

/-- One character of a JSON string literal, with the escapes
`JSON.stringify` produces for quote, backslash and common controls. -/
def escapeChar (c : Char) : String :=
  if c = '"' then "\\\""
  else if c = '\\' then "\\\\"
  else if c = '\n' then "\\n"
  else if c = '\t' then "\\t"
  else if c = '\r' then "\\r"
  else String.mk [c]

/-- A JSON string literal: quoted, with characters escaped. -/
def escapeString (s : String) : String :=
  "\"" ++ String.join (s.toList.map escapeChar) ++ "\""

mutual

/-- Embeds `JSON.stringify` on the payload values of the plugin. -/
def Json.stringify : Json → String
  | .null => "null"
  | .bool true => "true"
  | .bool false => "false"
  | .num n => toString n
  | .str s => escapeString s
  | .arr elems => "[" ++ stringifyElems elems ++ "]"
  | .obj fields => "\x7b" ++ stringifyFields fields ++ "\x7d"

/-- Comma-separated serialization of JSON array elements. -/
def stringifyElems : List Json → String
  | [] => ""
  | [x] => Json.stringify x
  | x :: y :: rest => Json.stringify x ++ "," ++ stringifyElems (y :: rest)

/-- Comma-separated serialization of JSON object fields. -/
def stringifyFields : List (String × Json) → String
  | [] => ""
  | [kv] => escapeString kv.1 ++ ":" ++ Json.stringify kv.2
  | kv :: kv2 :: rest =>
      escapeString kv.1 ++ ":" ++ Json.stringify kv.2 ++ "," ++
        stringifyFields (kv2 :: rest)

end

/-- Embeds `new TextEncoder().encode(s)`: the UTF-8 bytes of a string,
as natural numbers below 256. -/
def utf8Bytes (s : String) : List Nat :=
  s.toUTF8.toList.map (fun b => b.toNat)

/-- Truncation to a 32-bit word (JS/WebCrypto arithmetic is on 32-bit
words inside SHA-256). -/
def w32 (n : Nat) : Nat := n % 4294967296

/-- 32-bit right rotation. -/
def rotr32 (n x : Nat) : Nat := w32 (x / 2 ^ n + x % 2 ^ n * 2 ^ (32 - n))

/-- Logical right shift. -/
def shr (n x : Nat) : Nat := x / 2 ^ n

/-- 32-bit bitwise complement. -/
def bnot32 (x : Nat) : Nat := Nat.xor x 4294967295

/-- The 64 SHA-256 round constants, written in decimal. -/
def sha256K : List Nat :=
  [1116352408, 1899447441, 3049323471, 3921009573, 961987163,
   1508970993, 2453635748, 2870763221, 3624381080, 310598401,
   607225278, 1426881987, 1925078388, 2162078206, 2614888103,
   3248222580, 3835390401, 4022224774, 264347078, 604807628,
   770255983, 1249150122, 1555081692, 1996064986, 2554220882,
   2821834349, 2952996808, 3210313671, 3336571891, 3584528711,
   113926993, 338241895, 666307205, 773529912, 1294757372,
   1396182291, 1695183700, 1986661051, 2177026350, 2456956037,
   2730485921, 2820302411, 3259730800, 3345764771, 3516065817,
   3600352804, 4094571909, 275423344, 430227734, 506948616,
   659060556, 883997877, 958139571, 1322822218, 1537002063,
   1747873779, 1955562222, 2024104815, 2227730452, 2361852424,
   2428436474, 2756734187, 3204031479, 3329325298]

/-- The eight SHA-256 initial hash words, written in decimal. -/
def sha256H0 : List Nat :=
  [1779033703, 3144134277, 1013904242, 2773480762,
   1359893119, 2600822924, 528734635, 1541459225]

/-- Big-endian byte decomposition of a number into `k` bytes. -/
def beBytes : Nat → Nat → List Nat
  | 0, _ => []
  | k + 1, n => beBytes k (n / 256) ++ [n % 256]

/-- SHA-256 message padding: append 0x80, zeros and the 64-bit
big-endian bit length, to a multiple of 64 bytes. -/
def sha256Pad (msg : List Nat) : List Nat :=
  let z := (119 - msg.length % 64) % 64
  msg ++ [0x80] ++ List.replicate z 0 ++ beBytes 8 (8 * msg.length)

/-- Group bytes into big-endian 32-bit words. -/
def bytesToWords : List Nat → List Nat
  | a :: b :: c :: d :: rest =>
      (((a * 256 + b) * 256 + c) * 256 + d) :: bytesToWords rest
  | _ => []

/-- The σ0 message-schedule function. -/
def schedS0 (x : Nat) : Nat := Nat.xor (rotr32 7 x) (Nat.xor (rotr32 18 x) (shr 3 x))

/-- The σ1 message-schedule function. -/
def schedS1 (x : Nat) : Nat := Nat.xor (rotr32 17 x) (Nat.xor (rotr32 19 x) (shr 10 x))

/-- The Σ0 compression function. -/
def compS0 (x : Nat) : Nat := Nat.xor (rotr32 2 x) (Nat.xor (rotr32 13 x) (rotr32 22 x))

/-- The Σ1 compression function. -/
def compS1 (x : Nat) : Nat := Nat.xor (rotr32 6 x) (Nat.xor (rotr32 11 x) (rotr32 25 x))

/-- The SHA-256 choice function. -/
def chF (e f g : Nat) : Nat := Nat.xor (Nat.land e f) (Nat.land (bnot32 e) g)

/-- The SHA-256 majority function. -/
def majF (a b c : Nat) : Nat :=
  Nat.xor (Nat.land a b) (Nat.xor (Nat.land a c) (Nat.land b c))

/-- Extend the 16 block words to the 64-entry message schedule. -/
def buildSchedule (ws : Array Nat) : Array Nat :=
  (List.range 48).foldl
    (fun w _ =>
      let t := w.size
      w.push (w32 (schedS1 (w.getD (t - 2) 0) + w.getD (t - 7) 0 +
        schedS0 (w.getD (t - 15) 0) + w.getD (t - 16) 0)))
    ws

/-- One SHA-256 compression round on the 8-word working state. -/
def roundFn (st : List Nat) (kw : Nat × Nat) : List Nat :=
  match st with
  | [a, b, c, d, e, f, g, h] =>
      let t1 := w32 (h + compS1 e + chF e f g + kw.1 + kw.2)
      let t2 := w32 (compS0 a + majF a b c)
      [w32 (t1 + t2), a, b, c, w32 (d + t1), e, f, g]
  | other => other

/-- Process one 64-byte block into the running hash state. -/
def compressBlock (h : List Nat) (block : List Nat) : List Nat :=
  let ws := (buildSchedule (Array.mk (bytesToWords block))).toList
  let fin := (sha256K.zip ws).foldl roundFn h
  (h.zip fin).map (fun p => w32 (p.1 + p.2))

/-- Split a byte list into 64-byte chunks. -/
def chunks64 : List Nat → List (List Nat)
  | [] => []
  | x :: rest =>
      (x :: rest).take 64 :: chunks64 ((x :: rest).drop 64)
  termination_by l => l.length
  decreasing_by simp [List.length_drop]; omega

/-- SHA-256 of a byte sequence, as 32 bytes. -/
def sha256Bytes (msg : List Nat) : List Nat :=
  (((chunks64 (sha256Pad msg)).foldl compressBlock sha256H0).map
    (beBytes 4)).flatten

/-- A lowercase hexadecimal digit. -/
def hexChar (n : Nat) : Char :=
  if n < 10 then Char.ofNat (48 + n) else Char.ofNat (87 + n)

/-- Embeds `b.toString(16).padStart(2, "0")`: two hex digits of a byte. -/
def byteToHex (b : Nat) : String :=
  String.mk [hexChar (b / 16 % 16), hexChar (b % 16)]

/-- Hex encoding of a byte sequence. -/
def bytesToHex (bs : List Nat) : String :=
  String.join (bs.map byteToHex)

/-- HMAC-SHA-256 (RFC 2104), the algorithm behind
`crypto.subtle.importKey("raw", key, HMAC/SHA-256)` + `crypto.subtle.sign`. -/
def hmacSha256 (key msg : List Nat) : List Nat :=
  let k0 := if key.length > 64 then sha256Bytes key else key
  let kpad := k0 ++ List.replicate (64 - k0.length) 0
  let ipadded := kpad.map (fun b => Nat.xor b 0x36)
  let opadded := kpad.map (fun b => Nat.xor b 0x5c)
  sha256Bytes (opadded ++ sha256Bytes (ipadded ++ msg))

/-- Embeds `WebhookPlugin.generateSignature`: hex-encoded HMAC-SHA-256 of
the UTF-8 bytes of `JSON.stringify(payload)` under the UTF-8 bytes of the
secret. -/
def generateSignature (payload : Json) (secret : String) : String :=
  bytesToHex (hmacSha256 (utf8Bytes secret) (utf8Bytes payload.stringify))

/-- A row of the `webhooks` table, with the JSON columns (`headers`,
`events`) already in parsed form as the plugin uses them. -/
structure Webhook where
  id : String
  name : String
  url : String
  method : String
  headers : List (String × String)
  secret : Option String
  active : Bool
  retry_count : Nat
  timeout : Nat
  events : List String
deriving Repr, DecidableEq

/-- An entry of `WebhookPlugin.queue`: the in-memory delivery attempt
pushed by `trigger` (and re-pushed by the retry timer). -/
structure QueueItem where
  webhook : Webhook
  eventType : String
  payload : Json
  retries : Nat
  timestamp : Nat
deriving Repr

/-- A row of the `webhook_deliveries` table as inserted by
`DatabaseService.logWebhookDelivery`. -/
structure Delivery where
  id : String
  create_date : String
  webhook_id : String
  event_type : String
  payload : String
  response_status : Option Nat
  response_body : Option String
  success : Bool
  retry_count : Nat
  error_message : Option String
  duration_ms : Nat
deriving Repr

/-- The persistent store: the two webhook tables, a counter standing in
for `generateUUID`/`getTimestamp` (environment-supplied in the source),
and a flag modelling whether the underlying `db.run` write throws
(`DatabaseService.run` catches, logs to console and re-throws). -/
structure DBState where
  webhooks : List Webhook
  deliveries : List Delivery
  nextId : Nat
  failWrites : Bool
deriving Repr

/-- The `response` argument of `DatabaseService.logWebhookDelivery`. -/
structure DeliveryResponse where
  status : Option Nat
  body : Option String
  success : Bool
  retryCount : Nat
  error : Option String
  duration : Nat
deriving Repr

/-- The `webhook_deliveries` row `DatabaseService.logWebhookDelivery`
builds: fresh id and timestamp, the serialized payload, and the fields of
the response object. -/
def mkDelivery (db : DBState) (webhookId eventType : String) (payload : Json)
    (resp : DeliveryResponse) : Delivery :=
  { id := toString db.nextId
    create_date := toString db.nextId
    webhook_id := webhookId
    event_type := eventType
    payload := payload.stringify
    response_status := resp.status
    response_body := resp.body
    success := resp.success
    retry_count := resp.retryCount
    error_message := resp.error
    duration_ms := resp.duration }

/-- Embeds `DatabaseService.logWebhookDelivery`: inserts one row into
`webhook_deliveries` via `run`; when the underlying write throws, `run`
re-throws after logging to the console, so the call errors and the table
is unchanged. -/
def logWebhookDelivery (db : DBState) (webhookId eventType : String)
    (payload : Json) (resp : DeliveryResponse) : Except String DBState :=
  if db.failWrites then .error "SQL run error" else
  .ok { db with
    deliveries := db.deliveries ++ [mkDelivery db webhookId eventType payload resp]
    nextId := db.nextId + 1 }

/-- The outcome of one `fetch` call: a completed HTTP response, or a
transport failure (network error, or `AbortSignal` timeout). -/
inductive HttpOutcome where
  | response (status : Nat) (body : String)
  | transportError (message : String)
deriving Repr, DecidableEq

/-- Embeds `response.ok`: status in the 2xx range, false for transport
failures (which never reach the `response.ok` test). -/
def HttpOutcome.isOk : HttpOutcome → Bool
  | .response s _ => 200 ≤ s && s < 300
  | .transportError _ => false

/-- JS object-key assignment on a header map: replace the value in place
if the key exists, else append. -/
def setHeader : List (String × String) → String → String → List (String × String)
  | [], k, v => [(k, v)]
  | (k0, v0) :: rest, k, v =>
      if k0 = k then (k, v) :: rest else (k0, v0) :: setHeader rest k v

/-- First-match header lookup. -/
def lookupHeader : List (String × String) → String → Option String
  | [], _ => none
  | (k0, v0) :: rest, k => if k0 = k then some v0 else lookupHeader rest k

/-- The outbound HTTP request `sendWebhook` hands to `fetch`. -/
structure Request where
  url : String
  method : String
  headers : List (String × String)
  body : String
  timeoutMs : Nat
deriving Repr

/-- Embeds the request-construction prefix of `WebhookPlugin.sendWebhook`:
headers start from Content-Type: application/json overridden by the
subscription's headers, then the signature header when a secret is set,
then `X-Event-Type`; body is `JSON.stringify(payload)`; the timeout is the
subscription's, in milliseconds. -/
def buildRequest (item : QueueItem) : Request :=
  let w := item.webhook
  let base := w.headers.foldl (fun hs kv => setHeader hs kv.1 kv.2)
    [("Content-Type", "application/json")]
  let withSig := match w.secret with
    | some sec => setHeader base "X-Webhook-Signature"
        (generateSignature item.payload sec)
    | none => base
  { url := w.url
    method := w.method
    headers := setHeader withSig "X-Event-Type" item.eventType
    body := item.payload.stringify
    timeoutMs := w.timeout * 1000 }

/-- `this.retryDelay` from the `WebhookPlugin` constructor (5000 ms). -/
def retryDelay : Nat := 5000

/-- Result of one `sendWebhook` call that returned: the store state, and
the retry the `setTimeout` callback will push (delay in ms, re-inserted
item), if one was scheduled. -/
structure SendResult where
  db : DBState
  scheduled : Option (Nat × QueueItem)
deriving Repr

/-- Embeds `WebhookPlugin.sendWebhook`.  The try block builds the request,
sends it (outcome supplied by `out`), and on a completed response logs a
delivery record with `success = response.ok`, throwing on non-2xx.  The
catch block logs a failure record (null status/body) for whatever was
thrown — transport error, the non-2xx `Error`, or a store error from the
first logging call — and schedules a backoff retry when
`retries < webhook.retry_count`.  A store error thrown by the catch
block's own logging call propagates out. -/
def sendWebhook (out : HttpOutcome) (item : QueueItem) (db : DBState) :
    Except String SendResult :=
  let w := item.webhook
  let _request := buildRequest item
  let tryStep : DBState × Option String :=
    match out with
    | .transportError msg => (db, some msg)
    | .response status body =>
      match logWebhookDelivery db w.id item.eventType item.payload
          ⟨some status, some body, 200 ≤ status && status < 300,
           item.retries, none, 0⟩ with
      | .error _ => (db, some "SQL run error")
      | .ok db1 =>
        if 200 ≤ status && status < 300 then (db1, none)
        else (db1, some ("HTTP " ++ toString status ++ ": " ++ body))
  match tryStep with
  | (db1, none) => .ok ⟨db1, none⟩
  | (db1, some msg) =>
    match logWebhookDelivery db1 w.id item.eventType item.payload
        ⟨none, none, false, item.retries, some msg, 0⟩ with
    | .error e => .error e
    | .ok db2 =>
      if item.retries < w.retry_count then
        .ok ⟨db2, some (retryDelay * 2 ^ item.retries,
          { item with retries := item.retries + 1 })⟩
      else
        .ok ⟨db2, none⟩

/-- Embeds `DatabaseService.getWebhooksForEvent`: the rows of
`SELECT * FROM webhooks WHERE active = 1`, filtered to those whose events
list contains the event name or the wildcard. -/
def getWebhooksForEvent (db : DBState) (eventType : String) : List Webhook :=
  (db.webhooks.filter (fun w => w.active)).filter
    (fun w => w.events.contains eventType || w.events.contains "*")

/-- The plugin's in-memory state: `this.queue` and `this.processing`,
plus the store it writes through. -/
structure PluginState where
  queue : List QueueItem
  processing : Bool
  db : DBState
deriving Repr

/-- Result of a drain pass: the remaining queue, the `processing` flag as
left by `processQueue`, the store, and the retry timers scheduled during
the pass. -/
structure DrainResult where
  queue : List QueueItem
  processing : Bool
  db : DBState
  timers : List (Nat × QueueItem)
deriving Repr

/-- The `while` loop of `WebhookPlugin.processQueue`: shift the head,
send it, repeat; on normal exit reset `processing` to false.  When
`sendWebhook` throws, the exception propagates out of the async loop and
`processing` is left `true` (there is no try/finally in the source). -/
def drainLoop (env : Nat → HttpOutcome) :
    List QueueItem → Nat → DBState → List (Nat × QueueItem) → DrainResult
  | [], _, db, ts => ⟨[], false, db, ts⟩
  | item :: rest, idx, db, ts =>
    match sendWebhook (env idx) item db with
    | .error _ => ⟨rest, true, db, ts⟩
    | .ok r => drainLoop env rest (idx + 1) r.db (ts ++ r.scheduled.toList)

/-- Embeds `WebhookPlugin.processQueue`: guarded on the `processing` flag
and a non-empty queue, then drains.  Returns the new plugin state and the
retry timers scheduled during the pass. -/
def processQueue (env : Nat → HttpOutcome) (st : PluginState) :
    PluginState × List (Nat × QueueItem) :=
  if st.processing || st.queue.isEmpty then (st, [])
  else
    let r := drainLoop env st.queue 0 st.db []
    (⟨r.queue, r.processing, r.db⟩, r.timers)

/-- Embeds the `setInterval` body of `WebhookPlugin.startQueueProcessor`:
every second, start a drain pass if idle and the queue is non-empty. -/
def tick (env : Nat → HttpOutcome) (st : PluginState) :
    PluginState × List (Nat × QueueItem) :=
  if !st.processing && st.queue.length > 0 then processQueue env st
  else (st, [])

/-- The queue item `WebhookPlugin.trigger` pushes for one matching
webhook: `retries: 0` and the trigger-time timestamp. -/
def mkAttempt (w : Webhook) (eventType : String) (payload : Json)
    (ts : Nat) : QueueItem :=
  { webhook := w, eventType := eventType, payload := payload,
    retries := 0, timestamp := ts }

/-- The fan-out push loop of `WebhookPlugin.trigger`: one queue item per
matching webhook. -/
def enqueueForEvent (st : PluginState) (eventType : String) (payload : Json)
    (ts : Nat) : PluginState :=
  { st with queue := st.queue ++ ((getWebhooksForEvent st.db eventType).map
      (fun w => mkAttempt w eventType payload ts)) }

/-- Embeds `WebhookPlugin.trigger`: returns early when no webhook
matches, otherwise enqueues the fan-out and starts a drain pass unless
one is already marked as running. -/
def trigger (env : Nat → HttpOutcome) (st : PluginState) (eventType : String)
    (payload : Json) (ts : Nat) : PluginState × List (Nat × QueueItem) :=
  if (getWebhooksForEvent st.db eventType).isEmpty then (st, [])
  else
    let st1 := enqueueForEvent st eventType payload ts
    if !st1.processing then processQueue env st1 else (st1, [])

/-- The `setTimeout` callback of the retry schedule: `this.queue.push`
appends the re-inserted item at the back of the queue. -/
def fireRetryTimer (st : PluginState) (t : Nat × QueueItem) : PluginState :=
  { st with queue := st.queue ++ [t.2] }

/-- Drives one attempt lineage to its terminal state: send, and while a
retry got scheduled, follow it with the re-inserted item (fuel bounds the
number of sends). -/
def runAttempt (env : Nat → HttpOutcome) :
    Nat → Nat → QueueItem → DBState → Except String DBState
  | 0, _, _, db => .ok db
  | fuel + 1, idx, item, db =>
    match sendWebhook (env idx) item db with
    | .error e => .error e
    | .ok r =>
      match r.scheduled with
      | none => .ok r.db
      | some (_, next) => runAttempt env fuel (idx + 1) next r.db

/-- Embeds the `getOne('SELECT * FROM webhooks WHERE id = ?')` lookup:
the first row with the given id. -/
def findWebhook (db : DBState) (webhookId : String) : Option Webhook :=
  (db.webhooks.filter (fun w => w.id = webhookId)).head?

/-- The synthetic payload `WebhookPlugin.test` builds when the caller
supplies none (its timestamp field is environment-supplied). -/
def defaultTestPayload (nowTs : String) : Json :=
  .obj [("test", .bool true), ("timestamp", .str nowTs),
        ("message", .str "This is a test webhook")]

/-- Embeds `WebhookPlugin.test`: look the webhook up by id (throwing when
absent), then run the normal `sendWebhook` path with event type `test`
and `retries: 0`. -/
def test (out : HttpOutcome) (db : DBState) (webhookId : String)
    (testPayload : Option Json) (nowTs : String) : Except String SendResult :=
  match findWebhook db webhookId with
  | none => .error "Webhook not found"
  | some w =>
    sendWebhook out
      { webhook := w, eventType := "test",
        payload := testPayload.getD (defaultTestPayload nowTs),
        retries := 0, timestamp := 0 } db

/-- A value bound into a positional SQL parameter slot. -/
inductive SqlValue where
  | s (v : String)
  | n (v : Int)
  | null
deriving Repr, DecidableEq

/-- The SQL text and parameter array of the `run` call inside
`DatabaseService.createWebhook` (whitespace normalized). -/
def createWebhookQuery (id now name url method headersJson : String)
    (secret : Option String) (retryCount timeoutSecs : Nat)
    (eventsJson : String) (metadataJson : Option String) :
    String × List SqlValue :=
  ("INSERT INTO webhooks (id, create_date, name, url, method, headers, secret, active, retry_count, timeout, events, metadata) VALUES (?, ?, ?, ?, ?, ?, ?, 1, ?, ?, ?, ?)",
   [.s id, .s now, .s name, .s url, .s method, .s headersJson,
    (match secret with | some v => .s v | none => .null),
    .n retryCount, .n timeoutSecs, .s eventsJson,
    (match metadataJson with | some v => .s v | none => .null)])

/-- The SQL text and parameters of the `run` call inside
`WebhookPlugin.update`: the SET clause is built by interpolating each
caller-supplied update key into the SQL string (`${key} = ?` joined by
commas), while the values and the id go through the parameter array. -/
def updateWebhookQuery (updates : List (String × SqlValue))
    (webhookId : String) : String × List SqlValue :=
  let kept := updates.filter (fun kv => kv.1 ≠ "id" && kv.1 ≠ "create_date")
  ("UPDATE webhooks SET " ++
     String.intercalate ", " (kept.map (fun kv => kv.1 ++ " = ?")) ++
     " WHERE id = ?",
   kept.map Prod.snd ++ [.s webhookId])

/-- The `run` call inside `WebhookPlugin.delete` (a soft delete). -/
def deleteWebhookQuery (webhookId : String) : String × List SqlValue :=
  ("UPDATE webhooks SET active = 0 WHERE id = ?", [.s webhookId])

/-- The `getAll` call inside `DatabaseService.getWebhooksForEvent`
(the event filter runs in JS, not in SQL). -/
def webhooksForEventQuery : String × List SqlValue :=
  ("SELECT * FROM webhooks WHERE active = 1", [])

/-- The `run` call inside `DatabaseService.logWebhookDelivery`
(whitespace normalized). -/
def logDeliveryQuery (id now webhookId eventType payloadJson : String)
    (status : Option Nat) (body : Option String) (success : Bool)
    (retryCount : Nat) (err : Option String) (duration : Option Nat) :
    String × List SqlValue :=
  ("INSERT INTO webhook_deliveries (id, create_date, webhook_id, event_type, payload, response_status, response_body, success, retry_count, error_message, duration_ms) VALUES (?, ?, ?, ?, ?, ?, ?, ?, ?, ?, ?)",
   [.s id, .s now, .s webhookId, .s eventType, .s payloadJson,
    (match status with | some v => .n v | none => .null),
    (match body with | some v => .s v | none => .null),
    .n (if success then 1 else 0), .n retryCount,
    (match err with | some v => .s v | none => .null),
    (match duration with | some v => .n v | none => .null)])

/-- The `getAll` call inside `WebhookPlugin.getDeliveryHistory`
(whitespace normalized). -/
def deliveryHistoryQuery (webhookId : String) (limit : Nat) :
    String × List SqlValue :=
  ("SELECT * FROM webhook_deliveries WHERE webhook_id = ? ORDER BY create_date DESC LIMIT ?",
   [.s webhookId, .n limit])

/-- The aggregate SELECT of `WebhookPlugin.getStatistics` (whitespace
normalized): the per-webhook variant appends a constant WHERE clause and
pushes the id into the parameter array. -/
def statisticsQuery (webhookId : Option String) : String × List SqlValue :=
  let base := "SELECT COUNT(*) as total, SUM(CASE WHEN success = 1 THEN 1 ELSE 0 END) as successful, SUM(CASE WHEN success = 0 THEN 1 ELSE 0 END) as failed, AVG(duration_ms) as avg_duration, MIN(duration_ms) as min_duration, MAX(duration_ms) as max_duration FROM webhook_deliveries"
  match webhookId with
  | some id => (base ++ " WHERE webhook_id = ?", [.s id])
  | none => (base, [])

/-- View of a delivery record for stating theorems: its retry count,
success flag and recorded HTTP status. -/
def deliveryView (d : Delivery) : Nat × Bool × Option Nat :=
  (d.retry_count, d.success, d.response_status)

/-- The views of the records one completed send appends: one success
record for a 2xx response; a status-bearing failure record plus the
catch block's null-status record for a non-2xx response; a single
null-status failure record for a transport error. -/
def expectedViews (out : HttpOutcome) (item : QueueItem) :
    List (Nat × Bool × Option Nat) :=
  match out with
  | .response s _ =>
      if 200 ≤ s && s < 300 then [(item.retries, true, some s)]
      else [(item.retries, false, some s), (item.retries, false, none)]
  | .transportError _ => [(item.retries, false, none)]

/-- The retry one completed send schedules: none on success or when the
retry counter has reached the subscription's maximum, otherwise the
backoff-delayed re-insertion with the incremented counter. -/
def expectedScheduled (out : HttpOutcome) (item : QueueItem) :
    Option (Nat × QueueItem) :=
  if out.isOk then none
  else if item.retries < item.webhook.retry_count then
    some (retryDelay * 2 ^ item.retries,
      { item with retries := item.retries + 1 })
  else none

/-- Equation for a successful store write. -/
theorem logWebhookDelivery_ok (db : DBState) (wid et : String) (p : Json)
    (resp : DeliveryResponse) (hw : db.failWrites = false) :
    logWebhookDelivery db wid et p resp =
      .ok { db with
        deliveries := db.deliveries ++ [mkDelivery db wid et p resp]
        nextId := db.nextId + 1 } := by
  simp [logWebhookDelivery, hw]

/-- Full characterization of a `sendWebhook` call whose store writes
succeed: it returns, appends exactly the records of `expectedViews`
(all carrying the attempt's webhook id, event type, retry counter and
serialized payload), and schedules exactly `expectedScheduled`. -/
theorem sendWebhook_ok_spec (out : HttpOutcome) (item : QueueItem)
    (db : DBState) (hw : db.failWrites = false) :
    ∃ r newRecs, sendWebhook out item db = .ok r ∧
      r.db.deliveries = db.deliveries ++ newRecs ∧
      newRecs.map deliveryView = expectedViews out item ∧
      (∀ d ∈ newRecs, d.webhook_id = item.webhook.id ∧
        d.event_type = item.eventType ∧ d.retry_count = item.retries ∧
        d.payload = item.payload.stringify) ∧
      r.scheduled = expectedScheduled out item ∧
      r.db.failWrites = false ∧ r.db.webhooks = db.webhooks := by
  cases out with
  | transportError msg =>
    refine ⟨⟨{ db with
        deliveries := db.deliveries ++ [mkDelivery db item.webhook.id
          item.eventType item.payload ⟨none, none, false, item.retries, some msg, 0⟩]
        nextId := db.nextId + 1 },
      expectedScheduled (.transportError msg) item⟩,
      [mkDelivery db item.webhook.id item.eventType item.payload
        ⟨none, none, false, item.retries, some msg, 0⟩],
      ?_, rfl, ?_, ?_, rfl, hw, rfl⟩
    · by_cases hr : item.retries < item.webhook.retry_count <;>
        simp [sendWebhook, logWebhookDelivery, hw, hr, expectedScheduled,
          HttpOutcome.isOk]
    · simp [deliveryView, mkDelivery, expectedViews]
    · simp [mkDelivery]
  | response s body =>
    by_cases h2 : (200 ≤ s && s < 300) = true
    · refine ⟨⟨{ db with
          deliveries := db.deliveries ++ [mkDelivery db item.webhook.id
            item.eventType item.payload
            ⟨some s, some body, 200 ≤ s && s < 300, item.retries, none, 0⟩]
          nextId := db.nextId + 1 }, none⟩,
        [mkDelivery db item.webhook.id item.eventType item.payload
          ⟨some s, some body, 200 ≤ s && s < 300, item.retries, none, 0⟩],
        ?_, rfl, ?_, ?_, ?_, hw, rfl⟩
      · simp [sendWebhook, logWebhookDelivery, hw, h2]
      · simp [deliveryView, mkDelivery, expectedViews, h2]
      · simp [mkDelivery]
      · simp [expectedScheduled, HttpOutcome.isOk, h2]
    · refine ⟨⟨{ db with
          deliveries := (db.deliveries ++ [mkDelivery db item.webhook.id
            item.eventType item.payload
            ⟨some s, some body, 200 ≤ s && s < 300, item.retries, none, 0⟩]) ++
            [mkDelivery { db with
                deliveries := db.deliveries ++ [mkDelivery db item.webhook.id
                  item.eventType item.payload
                  ⟨some s, some body, 200 ≤ s && s < 300, item.retries, none, 0⟩]
                nextId := db.nextId + 1 }
              item.webhook.id item.eventType item.payload
              ⟨none, none, false, item.retries,
               some ("HTTP " ++ toString s ++ ": " ++ body), 0⟩]
          nextId := db.nextId + 1 + 1 },
        expectedScheduled (.response s body) item⟩,
        [mkDelivery db item.webhook.id item.eventType item.payload
          ⟨some s, some body, 200 ≤ s && s < 300, item.retries, none, 0⟩,
         mkDelivery { db with
            deliveries := db.deliveries ++ [mkDelivery db item.webhook.id
              item.eventType item.payload
              ⟨some s, some body, 200 ≤ s && s < 300, item.retries, none, 0⟩]
            nextId := db.nextId + 1 }
          item.webhook.id item.eventType item.payload
          ⟨none, none, false, item.retries,
           some ("HTTP " ++ toString s ++ ": " ++ body), 0⟩],
        ?_, by simp, ?_, ?_, rfl, hw, rfl⟩
      · by_cases hr : item.retries < item.webhook.retry_count <;>
          simp [sendWebhook, logWebhookDelivery, hw, h2, hr, expectedScheduled,
            HttpOutcome.isOk]
      · simp [deliveryView, mkDelivery, expectedViews, h2]
      · simp [mkDelivery]

/-- A store error always propagates out of `sendWebhook`: whichever path
reaches a `logWebhookDelivery` call, the failing write re-throws there,
and the catch block's own logging call hits the same failing store. -/
theorem sendWebhook_store_fail (out : HttpOutcome) (item : QueueItem)
    (db : DBState) (hf : db.failWrites = true) :
    sendWebhook out item db = .error "SQL run error" := by
  cases out with
  | transportError msg => simp [sendWebhook, logWebhookDelivery, hf]
  | response s body => simp [sendWebhook, logWebhookDelivery, hf]

/-- The scenario subscription of the spec (registered with
`retry_count: 2`, subscribed to `user.registered`). -/
def scenarioWebhook : Webhook :=
  { id := "w1", name := "hook", url := "https://example.test/hook",
    method := "POST", headers := [], secret := none, active := true,
    retry_count := 2, timeout := 5, events := ["user.registered"] }

/-- The scenario trigger payload. -/
def scenarioPayload : Json := .obj [("id", .str "u1")]

/-- The scenario's initial queue item (retry counter 0). -/
def scenarioItem : QueueItem :=
  { webhook := scenarioWebhook, eventType := "user.registered",
    payload := scenarioPayload, retries := 0, timestamp := 0 }

/-- A store holding the scenario subscription, with writes succeeding. -/
def scenarioDb : DBState :=
  { webhooks := [scenarioWebhook], deliveries := [], nextId := 0,
    failWrites := false }

/-- The scenario environment: two HTTP 500 responses, then HTTP 200. -/
def scenarioEnv : Nat → HttpOutcome
  | 0 => .response 500 "err"
  | 1 => .response 500 "err"
  | _ => .response 200 "ok"

/-- The delivery-record views the scenario attempt leaves behind. -/
def scenarioViews : List (Nat × Bool × Option Nat) :=
  match runAttempt scenarioEnv 4 0 scenarioItem scenarioDb with
  | .ok db => db.deliveries.map deliveryView
  | .error _ => []

/-- C1 counterexample: in the spec's own scenario (retry_count 2, sends
returning 500, 500, 200) the code persists five delivery records, not
three — each non-2xx response is logged twice, once in the try block with
the real status and once in the catch block with a null status. -/
theorem c1_counterexample :
    scenarioViews = [(0, false, some 500), (0, false, none),
                     (1, false, some 500), (1, false, none),
                     (2, true, some 200)] ∧
    scenarioViews.length ≠ 3 := by
  constructor
  · rfl
  · decide

/-- C1 (amended): every send that completes persists records whose
retry_count equals the attempt's counter at that send; a 2xx response or
a transport error yields exactly one record, a non-2xx response yields
exactly two. -/
theorem c1_amended (out : HttpOutcome) (item : QueueItem) (db : DBState)
    (hw : db.failWrites = false) :
    ∃ r newRecs, sendWebhook out item db = .ok r ∧
      r.db.deliveries = db.deliveries ++ newRecs ∧
      (∀ d ∈ newRecs, d.retry_count = item.retries) ∧
      newRecs.length = (match out with
        | .response s _ => if 200 ≤ s && s < 300 then 1 else 2
        | .transportError _ => 1) := by
  obtain ⟨r, recs, heq, happ, hview, hfields, -, -, -⟩ :=
    sendWebhook_ok_spec out item db hw
  refine ⟨r, recs, heq, happ, fun d hd => (hfields d hd).2.2.1, ?_⟩
  have hlen : recs.length = (expectedViews out item).length := by
    rw [← hview, List.length_map]
  rw [hlen]
  cases out with
  | response s body =>
    by_cases h2 : (200 ≤ s && s < 300) = true <;> simp [expectedViews, h2]
  | transportError msg => simp [expectedViews]

/-- Instantiation of the amended C1 statement at the scenario's first
send (HTTP 500 at retry counter 0). -/
theorem c1_amended_witness :
    ∃ r newRecs,
      sendWebhook (.response 500 "err") scenarioItem scenarioDb = .ok r ∧
      r.db.deliveries = scenarioDb.deliveries ++ newRecs ∧
      (∀ d ∈ newRecs, d.retry_count = scenarioItem.retries) ∧
      newRecs.length = (match HttpOutcome.response 500 "err" with
        | .response s _ => if 200 ≤ s && s < 300 then 1 else 2
        | .transportError _ => 1) :=
  c1_amended (.response 500 "err") scenarioItem scenarioDb rfl

/-- A store whose writes throw, holding the scenario subscription with
`retry_count` 3. -/
def failingDb : DBState :=
  { webhooks := [{ scenarioWebhook with retry_count := 3 }],
    deliveries := [], nextId := 0, failWrites := true }

/-- An attempt for the failing store's subscription at retry counter 0. -/
def failingItem : QueueItem :=
  { webhook := { scenarioWebhook with retry_count := 3 },
    eventType := "user.registered", payload := scenarioPayload,
    retries := 0, timestamp := 0 }

/-- C2 counterexample: with the store's write throwing, an attempt whose
retry counter (0) is below the maximum (3) gets no scheduled retry — the
whole `sendWebhook` call throws instead of returning a result carrying a
scheduled re-insertion. -/
theorem c2_counterexample :
    failingItem.retries < failingItem.webhook.retry_count ∧
    sendWebhook (.transportError "network error") failingItem failingDb =
      .error "SQL run error" := by
  exact ⟨by decide, rfl⟩

/-- C2 (amended): a store write failure while persisting a delivery
record is logged to the console by `DatabaseService.run` and then
re-thrown; the exception exits `sendWebhook` before the retry-scheduling
branch, so the in-memory retry decision is NOT carried out. -/
theorem c2_amended (out : HttpOutcome) (item : QueueItem) (db : DBState)
    (hf : db.failWrites = true) :
    sendWebhook out item db = .error "SQL run error" :=
  sendWebhook_store_fail out item db hf

/-- Instantiation of the amended C2 statement at a concrete send against
the failing store. -/
theorem c2_amended_witness :
    sendWebhook (.response 200 "ok") failingItem failingDb =
      .error "SQL run error" :=
  c2_amended (.response 200 "ok") failingItem failingDb rfl

/-- The subscription of the second spec scenario: `retry_count: 0`. -/
def zeroRetryItem : QueueItem :=
  { webhook := { scenarioWebhook with retry_count := 0 },
    eventType := "user.registered", payload := scenarioPayload,
    retries := 0, timestamp := 0 }

/-- C4 counterexample: with `retry_count: 0` and a single HTTP 503, the
code persists two failure records (status 503 from the try block, null
status from the catch block), not exactly one; no retry is scheduled. -/
theorem c4_counterexample :
    (match sendWebhook (.response 503 "unavailable") zeroRetryItem scenarioDb with
     | .ok r => (r.db.deliveries.map deliveryView, r.scheduled.isSome)
     | .error _ => ([], true)) =
      ([(0, false, some 503), (0, false, none)], false) ∧
    (match sendWebhook (.response 503 "unavailable") zeroRetryItem scenarioDb with
     | .ok r => r.db.deliveries.length
     | .error _ => 0) ≠ 1 := by
  exact ⟨rfl, by decide⟩

/-- C4 (amended): every persisted record's retry count stays at or below
the subscription's `retry_count`, and an attempt whose counter has
reached the maximum is dropped with no further scheduling — but a failing
send persists two failure records, not one (so `retry_count: 0` with an
HTTP 503 yields two failure records with retry count 0 and no retry). -/
theorem c4_amended (out : HttpOutcome) (item : QueueItem) (db : DBState)
    (hw : db.failWrites = false)
    (hle : item.retries ≤ item.webhook.retry_count) :
    ∃ r newRecs, sendWebhook out item db = .ok r ∧
      r.db.deliveries = db.deliveries ++ newRecs ∧
      (∀ d ∈ newRecs, d.retry_count ≤ item.webhook.retry_count) ∧
      (item.retries = item.webhook.retry_count → r.scheduled = none) := by
  obtain ⟨r, recs, heq, happ, -, hfields, hsched, -, -⟩ :=
    sendWebhook_ok_spec out item db hw
  refine ⟨r, recs, heq, happ, ?_, ?_⟩
  · intro d hd
    rw [(hfields d hd).2.2.1]
    exact hle
  · intro hmax
    rw [hsched]
    have hnlt : ¬ item.retries < item.webhook.retry_count := by omega
    simp [expectedScheduled, hnlt]

/-- Instantiation of the amended C4 statement at the zero-retry scenario
(HTTP 503 at retry counter 0 with `retry_count` 0). -/
theorem c4_amended_witness :
    ∃ r newRecs,
      sendWebhook (.response 503 "unavailable") zeroRetryItem scenarioDb = .ok r ∧
      r.db.deliveries = scenarioDb.deliveries ++ newRecs ∧
      (∀ d ∈ newRecs, d.retry_count ≤ zeroRetryItem.webhook.retry_count) ∧
      (zeroRetryItem.retries = zeroRetryItem.webhook.retry_count →
        r.scheduled = none) :=
  c4_amended (.response 503 "unavailable") zeroRetryItem scenarioDb rfl
    (by decide)

/-- C8: a send whose response status is in 200–299 persists exactly one
record, with success=true, and schedules no retry; every other outcome
(non-2xx response, transport error/timeout) is recorded with
success=false on every record it persists. -/
theorem c8_outcome_recording (item : QueueItem) (db : DBState)
    (hw : db.failWrites = false) :
    (∀ s body, (200 ≤ s && s < 300) = true →
      ∃ r newRecs, sendWebhook (.response s body) item db = .ok r ∧
        r.db.deliveries = db.deliveries ++ newRecs ∧
        newRecs.map deliveryView = [(item.retries, true, some s)] ∧
        r.scheduled = none) ∧
    (∀ out, HttpOutcome.isOk out = false →
      ∃ r newRecs, sendWebhook out item db = .ok r ∧
        r.db.deliveries = db.deliveries ++ newRecs ∧
        newRecs ≠ [] ∧ (∀ d ∈ newRecs, d.success = false)) := by
  constructor
  · intro s body h2
    obtain ⟨r, recs, heq, happ, hview, -, hsched, -, -⟩ :=
      sendWebhook_ok_spec (.response s body) item db hw
    refine ⟨r, recs, heq, happ, ?_, ?_⟩
    · rw [hview]
      simp [expectedViews, h2]
    · rw [hsched]
      simp [expectedScheduled, HttpOutcome.isOk, h2]
  · intro out hno
    obtain ⟨r, recs, heq, happ, hview, -, -, -, -⟩ :=
      sendWebhook_ok_spec out item db hw
    have hallfail : ∀ v ∈ expectedViews out item, v.2.1 = false := by
      cases out with
      | response s body =>
        have h2 : ¬ (200 ≤ s && s < 300) = true := by
          simpa [HttpOutcome.isOk] using hno
        simp [expectedViews, h2]
      | transportError msg => simp [expectedViews]
    refine ⟨r, recs, heq, happ, ?_, ?_⟩
    · intro hnil
      rw [hnil] at hview
      cases out with
      | response s body =>
        have h2 : ¬ (200 ≤ s && s < 300) = true := by
          simpa [HttpOutcome.isOk] using hno
        simp [expectedViews, h2] at hview
      | transportError msg => simp [expectedViews] at hview
    · intro d hd
      have hv : deliveryView d ∈ expectedViews out item := by
        rw [← hview]
        exact List.mem_map_of_mem deliveryView hd
      have := hallfail (deliveryView d) hv
      simpa [deliveryView] using this

/-- Instantiation of C8 at the scenario store: a 204 response is recorded
once with success=true and no retry; a 500 response is recorded only with
success=false. -/
theorem c8_outcome_recording_witness :
    (∃ r newRecs,
      sendWebhook (.response 204 "") scenarioItem scenarioDb = .ok r ∧
      r.db.deliveries = scenarioDb.deliveries ++ newRecs ∧
      newRecs.map deliveryView = [(scenarioItem.retries, true, some 204)] ∧
      r.scheduled = none) ∧
    (∃ r newRecs,
      sendWebhook (.response 500 "err") scenarioItem scenarioDb = .ok r ∧
      r.db.deliveries = scenarioDb.deliveries ++ newRecs ∧
      newRecs ≠ [] ∧ (∀ d ∈ newRecs, d.success = false)) :=
  ⟨(c8_outcome_recording scenarioItem scenarioDb rfl).1 204 "" (by decide),
   (c8_outcome_recording scenarioItem scenarioDb rfl).2
     (.response 500 "err") (by decide)⟩

/-- C6: a failed send whose counter is below the maximum schedules the
re-insertion with the incremented counter after
`retryDelay * 2 ^ priorCount` ms — with `retryDelay = 5000`, the delay
before retry k (prior counter k−1) is `5000 * 2^(k-1)`, strictly
increasing in k — and the timer callback appends the re-inserted item at
the back of the queue. -/
theorem c6_backoff (out : HttpOutcome) (item : QueueItem) (db : DBState)
    (hw : db.failWrites = false) (hfail : HttpOutcome.isOk out = false)
    (hr : item.retries < item.webhook.retry_count) :
    (∃ r, sendWebhook out item db = .ok r ∧
      r.scheduled = some (retryDelay * 2 ^ item.retries,
        { item with retries := item.retries + 1 })) ∧
    retryDelay = 5000 ∧
    StrictMono (fun k => retryDelay * 2 ^ k) ∧
    (∀ st t, (fireRetryTimer st t).queue = st.queue ++ [t.2]) := by
  refine ⟨?_, rfl, ?_, fun st t => rfl⟩
  · obtain ⟨r, recs, heq, -, -, -, hsched, -, -⟩ :=
      sendWebhook_ok_spec out item db hw
    refine ⟨r, heq, ?_⟩
    rw [hsched]
    simp [expectedScheduled, hfail, hr]
  · intro a b hab
    have hpow : 2 ^ a < 2 ^ b := Nat.pow_lt_pow_right (by norm_num) hab
    simp only [retryDelay]
    omega

/-- Instantiation of C6 at the scenario's second failure (retry counter
1, maximum 2): the retry is scheduled after 10000 ms with counter 2 and
re-enters at the back. -/
theorem c6_backoff_witness :
    (∃ r, sendWebhook (.response 500 "err")
        { scenarioItem with retries := 1 } scenarioDb = .ok r ∧
      r.scheduled = some (retryDelay * 2 ^ 1,
        { scenarioItem with retries := 2 })) ∧
    retryDelay = 5000 ∧
    StrictMono (fun k => retryDelay * 2 ^ k) ∧
    (∀ st t, (fireRetryTimer st t).queue = st.queue ++ [t.2]) :=
  c6_backoff (.response 500 "err") { scenarioItem with retries := 1 }
    scenarioDb rfl (by decide) (by decide)

/-- A store with one subscription whose `retry_count` is the default 3,
used to probe the test-trigger path. -/
def testProbeDb : DBState :=
  { webhooks := [{ scenarioWebhook with retry_count := 3 }],
    deliveries := [], nextId := 0, failWrites := false }

/-- C5 counterexample: a test trigger whose send fails DOES schedule an
automatic retry — `test` funnels into `sendWebhook`, whose catch block
re-inserts the attempt (delay 5000 ms, counter 1) because 0 < 3. -/
theorem c5_counterexample :
    (match test (.transportError "connection refused") testProbeDb "w1"
        (some scenarioPayload) "t0" with
     | .ok r => r.scheduled.map (fun t => (t.1, t.2.retries))
     | .error _ => none) = some (5000, 1) := by
  rfl

/-- The queue item `WebhookPlugin.test` hands to `sendWebhook`: the
looked-up webhook, event type `test`, retry counter 0. -/
def testItem (w : Webhook) (payload : Json) : QueueItem :=
  { webhook := w, eventType := "test", payload := payload,
    retries := 0, timestamp := 0 }

/-- C5 (amended): the test trigger performs the same send-and-record path
for the named subscription with the retry counter fixed at 0 and event
type `test`, but it does not bypass automatic retry scheduling: when the
send fails and the subscription's `retry_count` is positive, a retry is
scheduled into the shared queue (delay 5000 ms, counter 1). -/
theorem c5_amended (out : HttpOutcome) (db : DBState) (id : String)
    (payload : Json) (ts : String) (w : Webhook)
    (hw : db.failWrites = false) (hfind : findWebhook db id = some w) :
    test out db id (some payload) ts = sendWebhook out (testItem w payload) db ∧
    ∃ r newRecs,
      sendWebhook out (testItem w payload) db = .ok r ∧
      r.db.deliveries = db.deliveries ++ newRecs ∧
      (∀ d ∈ newRecs, d.retry_count = 0 ∧ d.event_type = "test") ∧
      r.scheduled = (if out.isOk then none
        else if 0 < w.retry_count then
          some (retryDelay, { testItem w payload with retries := 1 })
        else none) := by
  constructor
  · simp [test, hfind, testItem]
  · obtain ⟨r, recs, heq, happ, -, hfields, hsched, -, -⟩ :=
      sendWebhook_ok_spec out (testItem w payload) db hw
    refine ⟨r, recs, heq, happ, ?_, ?_⟩
    · intro d hd
      exact ⟨(hfields d hd).2.2.1, (hfields d hd).2.1⟩
    · rw [hsched]
      simp [expectedScheduled, testItem]

/-- Instantiation of the amended C5 statement at the probe store with a
failing send. -/
theorem c5_amended_witness :
    test (.transportError "connection refused") testProbeDb "w1"
        (some scenarioPayload) "t0" =
      sendWebhook (.transportError "connection refused")
        (testItem { scenarioWebhook with retry_count := 3 } scenarioPayload)
        testProbeDb ∧
    ∃ r newRecs,
      sendWebhook (.transportError "connection refused")
        (testItem { scenarioWebhook with retry_count := 3 } scenarioPayload)
        testProbeDb = .ok r ∧
      r.db.deliveries = testProbeDb.deliveries ++ newRecs ∧
      (∀ d ∈ newRecs, d.retry_count = 0 ∧ d.event_type = "test") ∧
      r.scheduled = (if (HttpOutcome.transportError "connection refused").isOk
          then none
        else if 0 < ({ scenarioWebhook with retry_count := 3 } : Webhook).retry_count then
          some (retryDelay, { testItem { scenarioWebhook with retry_count := 3 } scenarioPayload with retries := 1 })
        else none) :=
  c5_amended (.transportError "connection refused") testProbeDb "w1"
    scenarioPayload "t0" { scenarioWebhook with retry_count := 3 } rfl rfl

/-- A drain pass over a non-empty queue whose first send throws (store
writes failing) leaves `processing` stuck at `true`, the failed head
consumed, and the store untouched. -/
theorem processQueue_crash (env : Nat → HttpOutcome) (st : PluginState)
    (hp : st.processing = false) (hq : st.queue ≠ [])
    (hf : st.db.failWrites = true) :
    processQueue env st = (⟨st.queue.tail, true, st.db⟩, []) := by
  obtain ⟨item, rest, hqe⟩ := List.exists_cons_of_ne_nil hq
  rw [processQueue]
  rw [hqe]
  simp only [hp, List.isEmpty_cons, Bool.false_or, Bool.false_eq_true,
    if_false]
  rw [drainLoop, sendWebhook_store_fail (env 0) item st.db hf]
  rfl

/-- C3: once a drain pass dies on a thrown `sendWebhook` (here: the store
write inside `logWebhookDelivery` throwing), the `processing` flag stays
`true`; from then on the periodic tick does nothing, a direct
`processQueue` call does nothing, and any later trigger only appends to
the queue — the store sees no further delivery, so queued attempts are
never processed. -/
theorem c3_stuck_processing (env : Nat → HttpOutcome) (st : PluginState)
    (hp : st.processing = false) (hq : st.queue ≠ [])
    (hf : st.db.failWrites = true) :
    (processQueue env st).1.processing = true ∧
    (∀ env2, tick env2 (processQueue env st).1 = ((processQueue env st).1, [])) ∧
    (∀ env2, processQueue env2 (processQueue env st).1 =
      ((processQueue env st).1, [])) ∧
    (∀ env2 e p ts,
      (trigger env2 (processQueue env st).1 e p ts).1.processing = true ∧
      (trigger env2 (processQueue env st).1 e p ts).1.db =
        (processQueue env st).1.db ∧
      ∃ added, (trigger env2 (processQueue env st).1 e p ts).1.queue =
        (processQueue env st).1.queue ++ added) := by
  rw [processQueue_crash env st hp hq hf]
  refine ⟨rfl, fun env2 => by simp [tick], fun env2 => by simp [processQueue], ?_⟩
  intro env2 e p ts
  by_cases hm : (getWebhooksForEvent st.db e).isEmpty
  · refine ⟨?_, ?_, [], ?_⟩ <;> simp [trigger, hm]
  · refine ⟨?_, ?_, ?_⟩
    · simp [trigger, hm, enqueueForEvent, processQueue]
    · simp [trigger, hm, enqueueForEvent, processQueue]
    · refine ⟨(getWebhooksForEvent st.db e).map (fun w => mkAttempt w e p ts), ?_⟩
      simp [trigger, hm, enqueueForEvent, processQueue]

/-- Concrete instantiation of C3: a one-element queue over the failing
store; the drain pass leaves `processing = true` and a later trigger of
the subscribed event only grows the queue. -/
theorem c3_stuck_processing_witness :
    (processQueue scenarioEnv ⟨[failingItem], false, failingDb⟩).1.processing = true ∧
    (∀ env2, tick env2 (processQueue scenarioEnv ⟨[failingItem], false, failingDb⟩).1 =
      ((processQueue scenarioEnv ⟨[failingItem], false, failingDb⟩).1, [])) ∧
    (∀ env2, processQueue env2 (processQueue scenarioEnv ⟨[failingItem], false, failingDb⟩).1 =
      ((processQueue scenarioEnv ⟨[failingItem], false, failingDb⟩).1, [])) ∧
    (∀ env2 e p ts,
      (trigger env2 (processQueue scenarioEnv ⟨[failingItem], false, failingDb⟩).1 e p ts).1.processing = true ∧
      (trigger env2 (processQueue scenarioEnv ⟨[failingItem], false, failingDb⟩).1 e p ts).1.db =
        (processQueue scenarioEnv ⟨[failingItem], false, failingDb⟩).1.db ∧
      ∃ added, (trigger env2 (processQueue scenarioEnv ⟨[failingItem], false, failingDb⟩).1 e p ts).1.queue =
        (processQueue scenarioEnv ⟨[failingItem], false, failingDb⟩).1.queue ++ added) :=
  c3_stuck_processing scenarioEnv ⟨[failingItem], false, failingDb⟩ rfl
    (List.cons_ne_nil failingItem []) rfl

/-- C7: a trigger enqueues exactly one attempt (with retry counter 0 and
the triggered event's name) per webhook that is active and whose events
list contains the event name or the wildcard `*`; a webhook subscribed to
`*` matches every event name. -/
theorem c7_fanout (st : PluginState) (e : String) (p : Json) (ts : Nat) :
    (enqueueForEvent st e p ts).queue.length = st.queue.length +
      ((st.db.webhooks.filter (fun w => w.active)).filter
        (fun w => w.events.contains e || w.events.contains "*")).length ∧
    (∀ it ∈ (enqueueForEvent st e p ts).queue.drop st.queue.length,
      it.retries = 0 ∧ it.eventType = e) ∧
    (∀ w ∈ st.db.webhooks, w.active = true → w.events.contains "*" = true →
      w ∈ getWebhooksForEvent st.db e) := by
  refine ⟨?_, ?_, ?_⟩
  · simp [enqueueForEvent, getWebhooksForEvent]
  · intro it hit
    rw [enqueueForEvent] at hit
    simp only [List.drop_left] at hit
    obtain ⟨w, -, hweq⟩ := List.mem_map.mp hit
    rw [← hweq]
    exact ⟨rfl, rfl⟩
  · intro w hw hact hwild
    simp only [getWebhooksForEvent, List.mem_filter]
    exact ⟨⟨hw, by rw [hact]⟩, by rw [hwild, Bool.or_true]⟩

/-- Concrete instantiation of C7: a wildcard subscription receives the
attempt for an event name it never listed. -/
theorem c7_fanout_witness :
    { scenarioWebhook with events := ["*"] } ∈
      getWebhooksForEvent
        { webhooks := [{ scenarioWebhook with events := ["*"] }],
          deliveries := [], nextId := 0, failWrites := false }
        "never.listed.event" :=
  (c7_fanout
    ⟨[], false,
      { webhooks := [{ scenarioWebhook with events := ["*"] }],
        deliveries := [], nextId := 0, failWrites := false }⟩
    "never.listed.event" Json.null 0).2.2
    { scenarioWebhook with events := ["*"] } (by simp) rfl (by decide)

/-- Looking up the key just set yields the value just set. -/
theorem lookupHeader_setHeader_self (hs : List (String × String))
    (k v : String) : lookupHeader (setHeader hs k v) k = some v := by
  induction hs with
  | nil => simp [setHeader, lookupHeader]
  | cons kv rest ih =>
    obtain ⟨k0, v0⟩ := kv
    by_cases h : k0 = k
    · simp [setHeader, lookupHeader, h]
    · simp [setHeader, lookupHeader, h, ih]

/-- Setting one key leaves lookups of a different key unchanged. -/
theorem lookupHeader_setHeader_ne (hs : List (String × String))
    (k v k2 : String) (hne : k2 ≠ k) :
    lookupHeader (setHeader hs k v) k2 = lookupHeader hs k2 := by
  induction hs with
  | nil => simp [setHeader, lookupHeader, Ne.symm hne]
  | cons kv rest ih =>
    obtain ⟨k0, v0⟩ := kv
    by_cases h : k0 = k
    · simp [setHeader, lookupHeader, h, Ne.symm hne]
    · by_cases h3 : k0 = k2
      · simp [setHeader, lookupHeader, h, h3, hne]
      · simp [setHeader, lookupHeader, h, h3, ih]

/-- C9: the signature is a pure function of the serialized payload bytes
and the secret — identical serialized bytes and secret give the identical
HMAC-SHA-256 hex string — and the request body is exactly the string the
signature is computed over (the `X-Webhook-Signature` header holds the
HMAC of the body's UTF-8 bytes under the secret's UTF-8 bytes). -/
theorem c9_signature_determinism (p1 p2 : Json) (s1 s2 : String)
    (hp : p1.stringify = p2.stringify) (hs : s1 = s2) :
    generateSignature p1 s1 = generateSignature p2 s2 ∧
    (∀ item : QueueItem, (buildRequest item).body = item.payload.stringify) ∧
    (∀ (item : QueueItem) (sec : String), item.webhook.secret = some sec →
      lookupHeader (buildRequest item).headers "X-Webhook-Signature" =
        some (bytesToHex (hmacSha256 (utf8Bytes sec)
          (utf8Bytes (buildRequest item).body)))) := by
  refine ⟨?_, fun item => rfl, ?_⟩
  · rw [generateSignature, generateSignature, hp, hs]
  · intro item sec hsec
    have hb : (buildRequest item).headers =
        setHeader (setHeader
          (item.webhook.headers.foldl (fun hs1 kv => setHeader hs1 kv.1 kv.2)
            [("Content-Type", "application/json")])
          "X-Webhook-Signature" (generateSignature item.payload sec))
          "X-Event-Type" item.eventType := by
      simp [buildRequest, hsec]
    rw [hb, lookupHeader_setHeader_ne _ _ _ _ (by decide),
      lookupHeader_setHeader_self]
    rfl

/-- Instantiation of C9 at the scenario payload and a concrete secret. -/
theorem c9_signature_determinism_witness :
    generateSignature scenarioPayload "hmac-secret" =
      generateSignature scenarioPayload "hmac-secret" ∧
    (∀ item : QueueItem, (buildRequest item).body = item.payload.stringify) ∧
    (∀ (item : QueueItem) (sec : String), item.webhook.secret = some sec →
      lookupHeader (buildRequest item).headers "X-Webhook-Signature" =
        some (bytesToHex (hmacSha256 (utf8Bytes sec)
          (utf8Bytes (buildRequest item).body)))) :=
  c9_signature_determinism scenarioPayload scenarioPayload
    "hmac-secret" "hmac-secret" rfl rfl

/-- C10 counterexample: the SQL text of `WebhookPlugin.update` is not a
constant — it varies with the caller-supplied update keys, and a
caller-chosen key string is interpolated verbatim into the statement. -/
theorem c10_counterexample :
    (updateWebhookQuery [("name", .s "x")] "w1").1 ≠
      (updateWebhookQuery [("url", .s "x")] "w1").1 ∧
    (updateWebhookQuery [("active = 1, secret = NULL --", .s "x")] "w1").1 =
      "UPDATE webhooks SET active = 1, secret = NULL -- = ? WHERE id = ?" := by
  exact ⟨by decide, rfl⟩

/-- Key-indexed filter-map factors through the key list. -/
theorem filterMap_keys (u : List (String × SqlValue)) (p : String → Bool)
    (f : String → String) :
    ((u.filter (fun kv => p kv.1)).map (fun kv => f kv.1)) =
      (((u.map Prod.fst).filter p).map f) := by
  induction u with
  | nil => rfl
  | cons kv rest ih =>
    by_cases h : p kv.1 = true
    · simp [h, ih]
    · simp [h, ih]

/-- C10 (amended): every webhook-component store operation except
`update` passes a constant SQL text, with caller data only in the
positional parameter array (the statistics query appends a constant
WHERE clause when an id is supplied, still binding the id
positionally); `update` interpolates the caller-supplied field NAMES
into the SQL text, but the field values and the webhook id still reach
the store only through the parameter array. -/
theorem c10_amended :
    (∀ id now name url method hJson secret rc tmo evJson meta,
      (createWebhookQuery id now name url method hJson secret rc tmo evJson
        meta).1 =
      "INSERT INTO webhooks (id, create_date, name, url, method, headers, secret, active, retry_count, timeout, events, metadata) VALUES (?, ?, ?, ?, ?, ?, ?, 1, ?, ?, ?, ?)") ∧
    (∀ id, (deleteWebhookQuery id).1 =
        "UPDATE webhooks SET active = 0 WHERE id = ?" ∧
      (deleteWebhookQuery id).2 = [.s id]) ∧
    webhooksForEventQuery =
      ("SELECT * FROM webhooks WHERE active = 1", []) ∧
    (∀ id now wid et pj status body succ rc err dur,
      (logDeliveryQuery id now wid et pj status body succ rc err dur).1 =
      "INSERT INTO webhook_deliveries (id, create_date, webhook_id, event_type, payload, response_status, response_body, success, retry_count, error_message, duration_ms) VALUES (?, ?, ?, ?, ?, ?, ?, ?, ?, ?, ?)") ∧
    (∀ id lim, (deliveryHistoryQuery id lim).1 =
        "SELECT * FROM webhook_deliveries WHERE webhook_id = ? ORDER BY create_date DESC LIMIT ?" ∧
      (deliveryHistoryQuery id lim).2 = [.s id, .n lim]) ∧
    (∀ id1 id2, (statisticsQuery (some id1)).1 = (statisticsQuery (some id2)).1 ∧
      (statisticsQuery (some id1)).2 = [.s id1]) ∧
    (∀ u1 u2 id1 id2, u1.map Prod.fst = u2.map Prod.fst →
      (updateWebhookQuery u1 id1).1 = (updateWebhookQuery u2 id2).1) ∧
    (∀ u id, (updateWebhookQuery u id).2 =
      ((u.filter (fun kv => kv.1 ≠ "id" && kv.1 ≠ "create_date")).map
        Prod.snd) ++ [.s id]) := by
  refine ⟨fun _ _ _ _ _ _ _ _ _ _ _ => rfl, fun _ => ⟨rfl, rfl⟩, rfl,
    fun _ _ _ _ _ _ _ _ _ _ _ => rfl, fun _ _ => ⟨rfl, rfl⟩,
    fun _ _ => ⟨rfl, rfl⟩, ?_, fun _ _ => rfl⟩
  intro u1 u2 id1 id2 hkeys
  simp only [updateWebhookQuery]
  have h1 := filterMap_keys u1
    (fun k => k ≠ "id" && k ≠ "create_date") (fun k => k ++ " = ?")
  have h2 := filterMap_keys u2
    (fun k => k ≠ "id" && k ≠ "create_date") (fun k => k ++ " = ?")
  rw [h1, h2, hkeys]

/-- Instantiation of the amended C10 statement: two update calls sharing
keys but differing in values and target id produce the same SQL text. -/
theorem c10_amended_witness :
    (updateWebhookQuery [("name", .s "a"), ("url", .s "b")] "w1").1 =
      (updateWebhookQuery [("name", .s "c"), ("url", .s "d")] "w2").1 :=
  (c10_amended).2.2.2.2.2.2.1
    [("name", .s "a"), ("url", .s "b")]
    [("name", .s "c"), ("url", .s "d")] "w1" "w2" rfl

end PwaWebhooks
